import Mathlib

/-
Verification of the Corundum transaction/journaling core.

Shallow embedding of `src/stm/journal.rs` and `src/alloc/pool.rs`.

Modelling conventions:
* Machine integers (`u64`, `u32`, `usize`, `i32` counters) are `Nat`
  (resp. `Int` for the signed nesting counter); bit operations use
  `Nat` bitwise primitives.
* A log record (`Log<A>`, defined outside the two embedded files) is
  identified by a `Nat`; the record operations `notify` / `commit` /
  `rollback` / `recover` / `clear` are tracked as events in an emitted
  trace rather than given record-level semantics, because the `Log`
  implementation is not part of the embedded sources.
* Persistence primitives (`msync`, `msync_obj`) are likewise tracked as
  events.
* The singly linked page chain (`Page.next`) is represented by the order
  of a `List Page`, head first (newest page first, as built by
  `Journal::new_page`, which prepends).
* Fallible file-system code returns `Except String`, and the file-system
  effects of `MemPool::apply_flags` are recorded as a list of actions.
-/

set_option maxHeartbeats 1000000
set_option maxRecDepth 100000

namespace Corundum

/-- `JOURNAL_COMMITTED` flag, journal.rs line 11. -/
def JOURNAL_COMMITTED : Nat := 0x00000001

/-- `PAGE_SIZE`, journal.rs line 70. -/
def PAGE_SIZE : Nat := 64

/-- `u64::MAX`, used for the dangling journal links in `Journal::new`. -/
def U64MAX : Nat := 2 ^ 64 - 1

/-- Identifier of a log record (stands for the `Log<A>` value in a slot). -/
abbrev LogId : Type := Nat

/-- The operation applied to one log record.  The `Log` type itself lives
outside the embedded sources, so its methods are tracked as trace events. -/
inductive LOp : Type where
  | notifyOp : LOp
  | commitOp : LOp
  | rollbackOp : LOp
  | recoverOp (rb : Bool) : LOp
  deriving DecidableEq

/-- Events emitted by journal methods: a record operation, a flag store
(`flags |= flag`), or the `msync_obj(&self.flags)` persist that follows it. -/
inductive Ev : Type where
  | act (id : LogId) (op : LOp) : Ev
  | setFlag (flag : Nat) : Ev
  | msyncFlags : Ev
  deriving DecidableEq

/-- Low-level events of `Page::write`: the store into `logs[len]`, the
`msync` of that slot, the `len += 1` bump, and (never emitted by the code,
present so its absence is expressible) a persist of `len`. -/
inductive WEv : Type where
  | store (slot : Nat) (val : LogId) : WEv
  | msyncSlot (slot : Nat) : WEv
  | bumpLen : WEv
  | msyncLen : WEv
  deriving DecidableEq

/-- `Page<A>` (journal.rs lines 72-78).  The `next` pointer is represented
by list order in `Journal.pages`; `logs` always has `PAGE_SIZE` slots. -/
structure Page : Type where
  len : Nat
  head : Nat
  logs : List LogId
  deriving DecidableEq

/-- `Journal<A>` (journal.rs lines 49-60), without the `pin_journals`
feature (not enabled by default). -/
structure Journal : Type where
  pages : List Page
  flags : Nat
  sec_id : Nat
  prev_off : Nat
  next_off : Nat
  chaperon : String
  deriving DecidableEq

/-- `Page::write` (journal.rs lines 83-90): store the record at
`logs[len]`, `msync` that slot, then bump `len`.  The code performs no
separate persist of `len` (no `msyncLen` event). -/
def Page.write (p : Page) (x : LogId) : Page × List WEv :=
  ({ p with logs := p.logs.set p.len x, len := p.len + 1 },
   [WEv.store p.len x, WEv.msyncSlot p.len, WEv.bumpLen])

/-- `Page::is_full` (journal.rs lines 93-95). -/
def Page.is_full (p : Page) : Bool :=
  p.len = PAGE_SIZE

/-- `Page::notify` (journal.rs lines 97-101): `for i in 0..len`. -/
def Page.notifyEv (p : Page) : List Ev :=
  (List.range p.len).map (fun i => Ev.act (p.logs.getD i 0) LOp.notifyOp)

/-- `Page::commit` (journal.rs lines 103-107). -/
def Page.commitEv (p : Page) : List Ev :=
  (List.range p.len).map (fun i => Ev.act (p.logs.getD i 0) LOp.commitOp)

/-- `Page::rollback` (journal.rs lines 109-113). -/
def Page.rollbackEv (p : Page) : List Ev :=
  (List.range p.len).map (fun i => Ev.act (p.logs.getD i 0) LOp.rollbackOp)

/-- `Page::recover` (journal.rs lines 115-119): the records are visited at
indices `len - i - 1` for `i in 0..len`, i.e. in reverse insertion order. -/
def Page.recoverEv (rb : Bool) (p : Page) : List Ev :=
  (List.range p.len).map (fun i => Ev.act (p.logs.getD (p.len - i - 1) 0) (LOp.recoverOp rb))

/-- The records of a page in slot order (the insertion order inside it). -/
def Page.records (p : Page) : List LogId :=
  (List.range p.len).map (fun i => p.logs.getD i 0)

/-- The records of a page in the order `Page::recover` visits them. -/
def Page.recIds (p : Page) : List LogId :=
  (List.range p.len).map (fun i => p.logs.getD (p.len - i - 1) 0)

/-- The fresh page built by `Journal::new_page` (journal.rs lines 224-242):
`len = 0`, `head = 0`, `logs` all default. -/
def Page.fresh : Page :=
  { len := 0, head := 0, logs := List.replicate PAGE_SIZE 0 }

/-- Concatenation of the per-page results of walking the page chain
(`while let Some(page) = curr.as_option() { ...; curr = page.next; }`). -/
def flatList {α : Type} : List (List α) → List α
  | [] => []
  | l :: ls => l ++ flatList ls

/-- `Journal::new` (journal.rs lines 147-160). -/
def Journal.new : Journal :=
  { pages := [], flags := 0, sec_id := 0,
    next_off := U64MAX, prev_off := U64MAX, chaperon := "" }

/-- `Journal::is_set` (journal.rs lines 179-181). -/
def Journal.is_set (j : Journal) (flag : Nat) : Bool :=
  j.flags &&& flag = flag

/-- `Journal::is_committed` (journal.rs lines 163-165). -/
def Journal.is_committed (j : Journal) : Bool :=
  j.is_set JOURNAL_COMMITTED

/-- `Journal::set` (journal.rs lines 168-171): `flags |= flag` followed by
`msync_obj(&self.flags)`; the two steps are recorded as events. -/
def Journal.set (j : Journal) (flag : Nat) : Journal × List Ev :=
  ({ j with flags := j.flags ||| flag }, [Ev.setFlag flag, Ev.msyncFlags])

/-- `Journal::reset` (journal.rs lines 174-176): `flags &= !flag` with a
64-bit bitwise not. -/
def Journal.reset (j : Journal) (flag : Nat) : Journal :=
  { j with flags := j.flags &&& (U64MAX ^^^ flag) }

/-- `Journal::write` without `pin_journals` (journal.rs lines 246-255),
with `Journal::new_page` (lines 224-242) inlined as prepending a fresh
page.  The allocator calls inside `new_page` (`atomic_new`, `log64`,
`perform`) install the page; their metadata effects are outside this
model.  The written value is the abstract record id. -/
def Journal.write (j : Journal) (x : LogId) : Journal :=
  match j.pages with
  | [] => { j with pages := [(Page.write Page.fresh x).1] }
  | p :: rest =>
    if p.is_full then
      { j with pages := (Page.write Page.fresh x).1 :: p :: rest }
    else
      { j with pages := (Page.write p x).1 :: rest }

/-- `Journal::commit` (journal.rs lines 271-283): notify every page, then
commit every page, then `set(JOURNAL_COMMITTED)`. -/
def Journal.commit (j : Journal) : Journal × List Ev :=
  let tr1 := flatList (j.pages.map Page.notifyEv)
  let tr2 := flatList (j.pages.map Page.commitEv)
  let (j', tr3) := j.set JOURNAL_COMMITTED
  (j', tr1 ++ (tr2 ++ tr3))

/-- `Journal::rollback` (journal.rs lines 286-298): notify every page, then
roll back every page, then `set(JOURNAL_COMMITTED)`. -/
def Journal.rollback (j : Journal) : Journal × List Ev :=
  let tr1 := flatList (j.pages.map Page.notifyEv)
  let tr2 := flatList (j.pages.map Page.rollbackEv)
  let (j', tr3) := j.set JOURNAL_COMMITTED
  (j', tr1 ++ (tr2 ++ tr3))

/-- `Journal::fast_forward` (journal.rs lines 384-402).

Modelled from the spec: `Chaperon::load` / `Chaperon::completed` are not
part of the embedded sources; the completion status the chaperone file
reports is passed in as `chapCompleted` (spec section 4.6: "a journal whose
chaperone reports `complete=true` is fast-forwarded").  The journal is
chaperoned when `sec_id != 0` and the chaperone path is non-empty, exactly
as in the source. -/
def Journal.fast_forward (j : Journal) (chapCompleted : Bool) : Bool :=
  if !(j.is_set JOURNAL_COMMITTED) then
    false
  else
    if j.sec_id ≠ 0 ∧ ¬ j.chaperon.isEmpty then
      if chapCompleted then true else false
    else
      true

/-- `Journal::recover` (journal.rs lines 301-316): notify every page; then,
only when `!committed || fast_forward`, run the recover pass with rollback
argument `!fast_forward || !committed` and set `COMMITTED`. -/
def Journal.recover (j : Journal) (chapCompleted : Bool) : Journal × List Ev :=
  let tr1 := flatList (j.pages.map Page.notifyEv)
  let ff := j.fast_forward chapCompleted
  if !(j.is_set JOURNAL_COMMITTED) || ff then
    let rb := !ff || !(j.is_set JOURNAL_COMMITTED)
    let tr2 := flatList (j.pages.map (Page.recoverEv rb))
    let (j', tr3) := j.set JOURNAL_COMMITTED
    (j', tr1 ++ (tr2 ++ tr3))
  else
    (j, tr1)

/-- `Journal::complete` (journal.rs lines 419-437): when attached to a
chaperone, detach (`sec_id = 0`, free the path); the `finish` call on the
external chaperone file is outside this model.  Both the found and the
missing chaperone-file branches clear the two fields. -/
def Journal.complete (j : Journal) : Journal :=
  if j.sec_id ≠ 0 ∧ ¬ j.chaperon.isEmpty then
    { j with chaperon := "", sec_id := 0 }
  else
    j

/-- `Journal::clear` without `pin_journals` (journal.rs lines 319-357):
every page is cleared and deallocated (so the page list becomes empty),
the journal is unlinked (the `prev_off` / `next_off` fixups touch other
journals, outside this single-journal state), and `complete()` runs. -/
def Journal.clear (j : Journal) : Journal :=
  Journal.complete { j with pages := [] }

/-- The per-thread transaction state: the journal and the `i32` nesting
counter stored with it in `MemPool::journals()`. -/
structure TxState : Type where
  journal : Journal
  counter : Int
  deriving DecidableEq

/-- Result of `MemPool::transaction`: normal return, the `Err` string, or a
panic escaping the call (from the nested-rollback path). -/
inductive TxResult (T : Type) : Type where
  | ok (t : T) : TxResult T
  | err (msg : String) : TxResult T
  | panicked (msg : String) : TxResult T
  deriving DecidableEq

/-- `MemPool::commit` (pool.rs lines 947-961): decrement the nesting
counter; at zero, commit the journal and clear it. -/
def MemPool.commitTx (st : TxState) : TxState × Option String :=
  let c := st.counter - 1
  if c = 0 then
    ({ journal := ((Journal.commit st.journal).1).clear, counter := c }, none)
  else
    ({ st with counter := c }, none)

/-- `MemPool::rollback` (pool.rs lines 1018-1035): decrement the nesting
counter; at zero, roll back the journal and clear it; otherwise panic with
"Unsuccessful nested transaction" (returned as `some` message). -/
def MemPool.rollbackTx (st : TxState) : TxState × Option String :=
  let c := st.counter - 1
  if c = 0 then
    ({ journal := ((Journal.rollback st.journal).1).clear, counter := c }, none)
  else
    ({ st with counter := c }, some "Unsuccessful nested transaction")

/-- `MemPool::transaction` (pool.rs lines 1103-1156), non-chaperoned path
(`Chaperon::current()` is `None`).  The body receives the journal after
the counter increment and the `reset(JOURNAL_COMMITTED)`; it returns its
possibly updated journal and `some` result, or `none` when it panics
(caught by `catch_unwind`).  A panic raised by `MemPool::rollback` itself
happens outside `catch_unwind` and escapes as `TxResult.panicked`. -/
def MemPool.transaction {T : Type} (st : TxState) (body : Journal → Journal × Option T) :
    TxState × TxResult T :=
  let j0 := Journal.reset st.journal JOURNAL_COMMITTED
  let st1 : TxState := { journal := j0, counter := st.counter + 1 }
  match body st1.journal with
  | (j2, some t) =>
    ((MemPool.commitTx { st1 with journal := j2 }).1, TxResult.ok t)
  | (j2, none) =>
    let r := MemPool.rollbackTx { st1 with journal := j2 }
    match r.2 with
    | none => (r.1, TxResult.err "Unsuccessful transaction")
    | some m => (r.1, TxResult.panicked m)

/-- `O_C` (pool.rs line 19). -/
def O_C : Nat := 0x00000001

/-- `O_F` (pool.rs line 22). -/
def O_F : Nat := 0x00000002

/-- `O_CNE` (pool.rs line 25). -/
def O_CNE : Nat := 0x00000004

/-- `DEFAULT_POOL_SIZE` (pool.rs line 14). -/
def DEFAULT_POOL_SIZE : Nat := 8 * 1024 * 1024

/-- File-system actions performed by `MemPool::apply_flags`:
`std::fs::remove_file`, `create_file(path, size)`, `Self::format`. -/
inductive FAct : Type where
  | removeFile : FAct
  | createFile (size : Nat) : FAct
  | formatFile : FAct
  deriving DecidableEq

/-- `u64::count_ones` on a value below `2 ^ 64`: the number of set bits. -/
def countOnes (n : Nat) : Nat :=
  ((List.range 64).filter (fun i => n.testBit i)).length

/-- Tail of `MemPool::apply_flags` (pool.rs lines 340-349) after the size
validation: decide formatting, create the file when `O_C` is set or when
`O_CNE` is set and no file exists (removing any existing file first), then
format when requested.  File-system failures are modelled as success. -/
def apply_flags_tail (fileExists : Bool) (flags : Nat) (size : Nat) : List FAct :=
  if flags &&& O_C ≠ 0 ∨ (flags &&& O_CNE ≠ 0 ∧ fileExists = false) then
    [FAct.removeFile, FAct.createFile size]
      ++ (if flags &&& O_F ≠ 0 then [FAct.formatFile] else [])
  else
    if fileExists = false ∧ flags &&& O_F ≠ 0 then [FAct.formatFile] else []

/-- `MemPool::apply_flags` (pool.rs lines 328-350): validate the size bits
(`flags >> 4`), then perform the file actions.  `fileExists` is the value
of `Path::new(path).exists()`. -/
def apply_flags (fileExists : Bool) (flags : Nat) : Except String (List FAct) :=
  let size0 := flags >>> 4
  if countOnes size0 > 1 then
    Except.error "Cannot have multiple size flags"
  else if size0 = 0 then
    Except.ok (apply_flags_tail fileExists flags DEFAULT_POOL_SIZE)
  else if flags &&& (O_C ||| O_CNE) = 0 then
    Except.error "Cannot use size flag without a create flag"
  else
    Except.ok (apply_flags_tail fileExists flags (size0 <<< 30))

/-- `MemPool::valid` (pool.rs lines 537-543): a reference at address
`addr` whose referent occupies `sz` bytes belongs to the pool iff its
FIRST byte lies in `[start, endp)`; `sz` (the `size_of_val` of the
referent, available in the source but only in commented-out code) is not
consulted. -/
def MemPool.valid (start endp addr sz : Nat) : Bool :=
  decide (addr ≥ start) && decide (addr < endp)

/-- `MemPool::off` (pool.rs lines 495-501). -/
def MemPool.off (start endp addr sz : Nat) : Except String Nat :=
  if MemPool.valid start endp addr sz then
    Except.ok (addr - start)
  else
    Except.error "out of valid range"

/-- A borrowed slice, by base address and length; `len = 0` yields the
constant empty slice `&[]` of the source, whose base is not derived from
the offset. -/
structure Slice : Type where
  base : Nat
  len : Nat
  deriving DecidableEq

/-- `MemPool::deref_slice_unchecked` (pool.rs lines 411-437), with the
`access_violation_check` / `debug_assertions` assertion compiled in:
`len = 0` returns `&[]` immediately; otherwise the slice at
`start + off` is produced subject to `allocated(off, size_of::<T>() * len)`
(`none` models the assertion panic). -/
def deref_slice_unchecked (allocated : Nat → Nat → Bool) (start off len sizeT : Nat) :
    Option Slice :=
  if len = 0 then
    some { base := 0, len := 0 }
  else
    if allocated off (sizeT * len) then some { base := start + off, len := len } else none

/-- `MemPool::deref_slice_unchecked_mut` (pool.rs lines 445-471): same
structure as `deref_slice_unchecked`, with `from_raw_parts_mut`. -/
def deref_slice_unchecked_mut (allocated : Nat → Nat → Bool) (start off len sizeT : Nat) :
    Option Slice :=
  if len = 0 then
    some { base := 0, len := 0 }
  else
    if allocated off (sizeT * len) then some { base := start + off, len := len } else none

/-- All records of a journal in page-chain order (newest page first),
slot order inside each page — the order `Journal::commit`'s loops visit. -/
def Journal.allRecords (j : Journal) : List LogId :=
  flatList (j.pages.map Page.records)

/-- The records of a journal in the order the recover pass visits them:
newest page first, reverse slot order inside each page. -/
def Journal.recIds (j : Journal) : List LogId :=
  flatList (j.pages.map Page.recIds)

/-- The record ids of the `recover` events of a trace, in order. -/
def recoverIdsOf (tr : List Ev) : List LogId :=
  tr.filterMap (fun e =>
    match e with
    | Ev.act id (LOp.recoverOp _) => some id
    | _ => none)

/-- The journal obtained from a fresh one by `n` logged writes, the `k`-th
write (`k = 0, …, n-1`) logging record id `k`; so the global insertion
order of the record ids is `0, 1, …, n-1`. -/
def writeN (n : Nat) : Journal :=
  (List.range n).foldl Journal.write Journal.new

/-- A page holding a single record (id 7), for the recovery scenario. -/
def pageC1 : Page :=
  { len := 1, head := 0, logs := 7 :: List.replicate 63 0 }

/-- A committed journal attached to a chaperone: `COMMITTED` set,
`sec_id = 1`, non-empty chaperone path, one page with one record. -/
def journalC1 : Journal :=
  { pages := [pageC1], flags := JOURNAL_COMMITTED, sec_id := 1,
    next_off := U64MAX, prev_off := U64MAX, chaperon := "chap" }

/-- Structural invariant of a page: `len` never exceeds the capacity and
the slot array always has exactly `PAGE_SIZE` entries. -/
def goodPage (p : Page) : Prop :=
  p.len ≤ PAGE_SIZE ∧ p.logs.length = PAGE_SIZE

/-- Structural invariant of a journal: every page is well formed. -/
def goodJ (j : Journal) : Prop :=
  ∀ p ∈ j.pages, goodPage p

/-- Claim C1 (code evaluation at the failing input): for a journal whose
`COMMITTED` flag is set, that is attached to a chaperone (`sec_id = 1`,
non-empty chaperone path) whose chaperone reports incomplete,
`Journal::recover` runs only the notify pass and returns the journal
unchanged: no record's `recover` is executed, so nothing is rolled back,
contrary to the claim (and to the source's own fast-forward table, whose
rollback argument `!fast_forward || !committed` is true in this case). -/
theorem c1_recover_skips_rollback_for_incomplete_chaperone :
    Journal.recover journalC1 false = (journalC1, [Ev.act 7 LOp.notifyOp])
    ∧ recoverIdsOf (Journal.recover journalC1 false).2 = [] := by
  constructor <;> decide

/-- Claim C5, counterexample: `Page::write` emits exactly the store into
`logs[len]`, the persist of that slot, and the `len` bump; it never emits
a persist of `len`, so the claimed fourth step does not happen. -/
theorem c5_page_write_counterexample :
    (Page.write Page.fresh 5).2 = [WEv.store 0 5, WEv.msyncSlot 0, WEv.bumpLen]
    ∧ WEv.msyncLen ∉ (Page.write Page.fresh 5).2 := by
  constructor <;> decide

/-- Claim C5 as amended: `Page::write` stores the new record into
`logs[len]`, persists that slot, and then increments `len`; it performs no
separate persist of `len`. -/
theorem c5_page_write_steps (p : Page) (x : LogId) :
    Page.write p x
      = ({ p with logs := p.logs.set p.len x, len := p.len + 1 },
         [WEv.store p.len x, WEv.msyncSlot p.len, WEv.bumpLen])
    ∧ WEv.msyncLen ∉ (Page.write p x).2 := by
  refine ⟨rfl, ?_⟩
  simp [Page.write]

/-- Claim C6, counterexample: with `O_C` set and the file already existing,
`apply_flags` removes the existing file and creates a fresh one (of the
default size), rather than leaving it in place. -/
theorem c6_apply_flags_o_c_counterexample :
    apply_flags true O_C
      = Except.ok [FAct.removeFile, FAct.createFile DEFAULT_POOL_SIZE] := by
  rfl

/-- Claim C8, counterexample: 200 logged writes starting from a journal
with no pages allocate four pages, not three. -/
theorem c8_two_hundred_writes_counterexample :
    ¬ (writeN 200).pages.length = 3 := by
  decide

/-- Claim C8 as amended: 200 logged writes starting from a journal with no
pages allocate exactly four pages, each with capacity `PAGE_SIZE = 64` log
slots; the newest page holds the remaining 8 records and the other three
are full. -/
theorem c8_two_hundred_writes_four_pages :
    (writeN 200).pages.length = 4
    ∧ (writeN 200).pages.map Page.len = [8, 64, 64, 64]
    ∧ (writeN 200).pages.map (fun p => p.logs.length) = [64, 64, 64, 64] := by
  decide

/-- Claim C9: `MemPool::valid` (hence `MemPool::off`) checks only that the
first byte of the referent lies in `[start, endp)`: any reference whose
start address is in range is valid and `off` returns the start-relative
offset, whatever the referent's size `sz` (its end is never checked, as
the third conjunct records: `valid` does not depend on `sz`). -/
theorem c9_valid_checks_start_only (start endp addr sz : Nat)
    (h1 : start ≤ addr) (h2 : addr < endp) :
    MemPool.valid start endp addr sz = true
    ∧ MemPool.off start endp addr sz = Except.ok (addr - start)
    ∧ MemPool.valid start endp addr sz = MemPool.valid start endp addr 0 := by
  have hv : MemPool.valid start endp addr sz = true := by
    simp [MemPool.valid, h1, h2]
  exact ⟨hv, by simp [MemPool.off, hv], rfl⟩

/-- Witness for C9 at a concrete input whose extent reaches past the end
of the pool: address 99 with size 1000 in the range `[0, 100)`. -/
theorem c9_valid_checks_start_only_witness :
    MemPool.valid 0 100 99 1000 = true
    ∧ MemPool.off 0 100 99 1000 = Except.ok (99 - 0)
    ∧ MemPool.valid 0 100 99 1000 = MemPool.valid 0 100 99 0 :=
  c9_valid_checks_start_only 0 100 99 1000 (by decide) (by decide)

/-- Claim C10: `deref_slice_unchecked` and `deref_slice_unchecked_mut`
with `len = 0` return the empty slice without consulting `allocated` (the
result is the same for every `allocated` predicate and offset); the
allocated/access-violation check is applied only when `len > 0`. -/
theorem c10_zero_len_skips_check (allocated : Nat → Nat → Bool)
    (start off len sizeT : Nat) :
    (len = 0 →
      deref_slice_unchecked allocated start off len sizeT = some { base := 0, len := 0 }
      ∧ deref_slice_unchecked_mut allocated start off len sizeT = some { base := 0, len := 0 })
    ∧ (0 < len →
      deref_slice_unchecked allocated start off len sizeT
        = (if allocated off (sizeT * len) then some { base := start + off, len := len } else none)
      ∧ deref_slice_unchecked_mut allocated start off len sizeT
        = (if allocated off (sizeT * len) then some { base := start + off, len := len } else none)) := by
  constructor
  · intro h
    subst h
    exact ⟨rfl, rfl⟩
  · intro h
    have hne : ¬ len = 0 := by omega
    constructor <;> simp [deref_slice_unchecked, deref_slice_unchecked_mut, hne]

/-- Witness for C10: with nothing allocated at all (`allocated` constantly
false) and an offset inside no block, `len = 0` still yields the empty
slice, while `len = 3` trips the check and fails. -/
theorem c10_zero_len_skips_check_witness :
    (deref_slice_unchecked (fun _ _ => false) 0 999999 0 8 = some { base := 0, len := 0 }
      ∧ deref_slice_unchecked_mut (fun _ _ => false) 0 999999 0 8 = some { base := 0, len := 0 })
    ∧ (deref_slice_unchecked (fun _ _ => false) 0 999999 3 8 = none
      ∧ deref_slice_unchecked_mut (fun _ _ => false) 0 999999 3 8 = none) :=
  ⟨(c10_zero_len_skips_check (fun _ _ => false) 0 999999 0 8).1 rfl,
   (c10_zero_len_skips_check (fun _ _ => false) 0 999999 3 8).2 (by decide)⟩

theorem nat_or_and_self (a b : Nat) : (a ||| b) &&& b = b := by
  apply Nat.eq_of_testBit_eq
  intro i
  simp only [Nat.testBit_and, Nat.testBit_or]
  cases b.testBit i <;> simp

theorem flatList_map_map {α β γ : Type} (ps : List α) (f : α → List β) (g : β → γ) :
    flatList (ps.map (fun p => (f p).map g)) = (flatList (ps.map f)).map g := by
  induction ps with
  | nil => rfl
  | cons p ps ih => simp [flatList, ih]

theorem page_notifyEv_eq (p : Page) :
    Page.notifyEv p = (Page.records p).map (fun id => Ev.act id LOp.notifyOp) := by
  simp [Page.notifyEv, Page.records, List.map_map]

theorem page_commitEv_eq (p : Page) :
    Page.commitEv p = (Page.records p).map (fun id => Ev.act id LOp.commitOp) := by
  simp [Page.commitEv, Page.records, List.map_map]

theorem page_rollbackEv_eq (p : Page) :
    Page.rollbackEv p = (Page.records p).map (fun id => Ev.act id LOp.rollbackOp) := by
  simp [Page.rollbackEv, Page.records, List.map_map]

theorem journal_notify_trace (j : Journal) :
    flatList (j.pages.map Page.notifyEv)
      = (Journal.allRecords j).map (fun id => Ev.act id LOp.notifyOp) := by
  have h : Page.notifyEv = fun p => (Page.records p).map (fun id => Ev.act id LOp.notifyOp) :=
    funext page_notifyEv_eq
  rw [h, flatList_map_map]
  rfl

theorem journal_commit_trace (j : Journal) :
    flatList (j.pages.map Page.commitEv)
      = (Journal.allRecords j).map (fun id => Ev.act id LOp.commitOp) := by
  have h : Page.commitEv = fun p => (Page.records p).map (fun id => Ev.act id LOp.commitOp) :=
    funext page_commitEv_eq
  rw [h, flatList_map_map]
  rfl

theorem journal_rollback_trace (j : Journal) :
    flatList (j.pages.map Page.rollbackEv)
      = (Journal.allRecords j).map (fun id => Ev.act id LOp.rollbackOp) := by
  have h : Page.rollbackEv = fun p => (Page.records p).map (fun id => Ev.act id LOp.rollbackOp) :=
    funext page_rollbackEv_eq
  rw [h, flatList_map_map]
  rfl

theorem journal_set_committed_is_set (j : Journal) :
    ((j.set JOURNAL_COMMITTED).1).is_set JOURNAL_COMMITTED = true := by
  simp [Journal.set, Journal.is_set, nat_or_and_self]

/-- Claim C2: `Journal::commit` runs `notify` on every record of every
page, then `commit` on every record of every page, then sets the
`COMMITTED` flag and persists it (`setFlag` followed by `msyncFlags`);
`Journal::rollback` does the same with `rollback` in place of `commit`.
The trace equalities show every notify event precedes every commit
(resp. rollback) event. -/
theorem c2_commit_rollback_notify_phase_first (j : Journal) :
    (Journal.commit j).2
      = (Journal.allRecords j).map (fun id => Ev.act id LOp.notifyOp)
        ++ ((Journal.allRecords j).map (fun id => Ev.act id LOp.commitOp)
          ++ [Ev.setFlag JOURNAL_COMMITTED, Ev.msyncFlags])
    ∧ ((Journal.commit j).1).is_set JOURNAL_COMMITTED = true
    ∧ (Journal.rollback j).2
      = (Journal.allRecords j).map (fun id => Ev.act id LOp.notifyOp)
        ++ ((Journal.allRecords j).map (fun id => Ev.act id LOp.rollbackOp)
          ++ [Ev.setFlag JOURNAL_COMMITTED, Ev.msyncFlags])
    ∧ ((Journal.rollback j).1).is_set JOURNAL_COMMITTED = true := by
  refine ⟨?_, ?_, ?_, ?_⟩
  · show flatList (j.pages.map Page.notifyEv)
        ++ (flatList (j.pages.map Page.commitEv) ++ (j.set JOURNAL_COMMITTED).2) = _
    rw [journal_notify_trace, journal_commit_trace]
    rfl
  · exact journal_set_committed_is_set j
  · show flatList (j.pages.map Page.notifyEv)
        ++ (flatList (j.pages.map Page.rollbackEv) ++ (j.set JOURNAL_COMMITTED).2) = _
    rw [journal_notify_trace, journal_rollback_trace]
    rfl
  · exact journal_set_committed_is_set j

/-- Claim C3: when the body of a non-chaperoned transaction panics, the
outermost frame (nesting counter 0 before entry, hence 0 after the
decrement) rolls the journal back, clears it and returns
`Err("Unsuccessful transaction")`, while a nested frame (counter still
positive) re-panics with "Unsuccessful nested transaction" leaving the
journal untouched. `f` is the body's effect on the journal before the
panic. -/
theorem c3_transaction_panic_rollback (st : TxState) (f : Journal → Journal) :
    (st.counter = 0 →
      MemPool.transaction st (fun j => (f j, (none : Option Unit)))
        = ({ journal := ((Journal.rollback (f (Journal.reset st.journal JOURNAL_COMMITTED))).1).clear,
             counter := 0 },
           TxResult.err "Unsuccessful transaction"))
    ∧ (0 < st.counter →
      MemPool.transaction st (fun j => (f j, (none : Option Unit)))
        = ({ journal := f (Journal.reset st.journal JOURNAL_COMMITTED),
             counter := st.counter },
           TxResult.panicked "Unsuccessful nested transaction")) := by
  constructor
  · intro h
    simp [MemPool.transaction, MemPool.rollbackTx, add_sub_cancel_right, h]
  · intro h
    have hne : ¬ st.counter = 0 := by omega
    simp [MemPool.transaction, MemPool.rollbackTx, add_sub_cancel_right, hne]

/-- Witness for C3: an outermost frame (counter 0) and a nested frame
(counter 1), each with a panicking body that leaves the journal alone. -/
theorem c3_transaction_panic_rollback_witness :
    MemPool.transaction { journal := Journal.new, counter := 0 }
        (fun j => (j, (none : Option Unit)))
      = ({ journal := ((Journal.rollback (Journal.reset Journal.new JOURNAL_COMMITTED)).1).clear,
           counter := 0 },
         TxResult.err "Unsuccessful transaction")
    ∧ MemPool.transaction { journal := Journal.new, counter := 1 }
        (fun j => (j, (none : Option Unit)))
      = ({ journal := Journal.reset Journal.new JOURNAL_COMMITTED,
           counter := 1 },
         TxResult.panicked "Unsuccessful nested transaction") :=
  ⟨(c3_transaction_panic_rollback { journal := Journal.new, counter := 0 } id).1 rfl,
   (c3_transaction_panic_rollback { journal := Journal.new, counter := 1 } id).2 (by decide)⟩

theorem getD_set_self (l : List LogId) (i : Nat) (x : LogId) (h : i < l.length) :
    (l.set i x).getD i 0 = x := by
  induction l generalizing i with
  | nil => simp at h
  | cons a l ih =>
    cases i with
    | zero => rfl
    | succ n =>
      have hn : n < l.length := by simpa using h
      simpa [List.getD_cons_succ] using ih n hn

theorem getD_set_ne (l : List LogId) (i k : Nat) (x : LogId) (h : ¬ i = k) :
    (l.set i x).getD k 0 = l.getD k 0 := by
  induction l generalizing i k with
  | nil => rfl
  | cons a l ih =>
    cases i with
    | zero =>
      cases k with
      | zero => exact absurd rfl h
      | succ m => simp [List.getD_cons_succ]
    | succ n =>
      cases k with
      | zero => rfl
      | succ m =>
        have h' : ¬ n = m := fun hc => h (by rw [hc])
        simpa [List.getD_cons_succ] using ih n m h'

theorem rev_index_map (ls : List LogId) (n : Nat) :
    (List.range n).map (fun i => ls.getD (n - i - 1) 0)
      = ((List.range n).map (fun i => ls.getD i 0)).reverse := by
  induction n with
  | zero => rfl
  | succ n ih =>
    conv_lhs => rw [List.range_succ_eq_map]
    conv_rhs => rw [List.range_succ]
    simp only [List.map_cons, List.map_map, List.map_append, List.reverse_append,
      List.map_nil, List.reverse_cons, List.reverse_nil, List.nil_append,
      List.singleton_append]
    congr 1
    rw [← ih]
    apply List.map_congr_left
    intro i _
    show ls.getD (n + 1 - (i + 1) - 1) 0 = ls.getD (n - i - 1) 0
    have he : n + 1 - (i + 1) - 1 = n - i - 1 := by omega
    rw [he]

theorem page_records_write (p : Page) (x : LogId) (h : p.len < p.logs.length) :
    Page.records (Page.write p x).1 = Page.records p ++ [x] := by
  unfold Page.records Page.write
  rw [List.range_succ, List.map_append]
  refine congrArg₂ (· ++ ·) ?_ ?_
  · apply List.map_congr_left
    intro i hi
    exact getD_set_ne _ _ _ _ (by have := List.mem_range.mp hi; omega)
  · simp only [List.map_cons, List.map_nil]
    rw [getD_set_self _ _ _ h]

theorem page_recIds_eq (p : Page) : Page.recIds p = (Page.records p).reverse :=
  rev_index_map p.logs p.len

theorem goodPage_fresh : goodPage Page.fresh := by
  constructor <;> simp [Page.fresh]

theorem goodPage_write (p : Page) (x : LogId) (h : goodPage p) (hf : p.is_full = false) :
    goodPage (Page.write p x).1 := by
  obtain ⟨h1, h2⟩ := h
  have hne : ¬ p.len = PAGE_SIZE := by simpa [Page.is_full] using hf
  constructor
  · show p.len + 1 ≤ PAGE_SIZE
    omega
  · show (p.logs.set p.len x).length = PAGE_SIZE
    simp [h2]

theorem goodJ_write (j : Journal) (x : LogId) (h : goodJ j) : goodJ (j.write x) := by
  intro q hq
  rcases hj : j.pages with _ | ⟨p, rest⟩
  · simp [Journal.write, hj] at hq
    subst hq
    exact goodPage_write _ _ goodPage_fresh rfl
  · cases hf : p.is_full
    · simp [Journal.write, hj, hf] at hq
      rcases hq with hq | hq
      · subst hq
        exact goodPage_write _ _ (h p (by rw [hj]; exact List.mem_cons_self _ _)) hf
      · exact h q (by rw [hj]; exact List.mem_cons_of_mem _ hq)
    · simp [Journal.write, hj, hf] at hq
      rcases hq with hq | hq | hq
      · subst hq
        exact goodPage_write _ _ goodPage_fresh rfl
      · subst hq
        exact h q (by rw [hj]; exact List.mem_cons_self _ _)
      · exact h q (by rw [hj]; exact List.mem_cons_of_mem _ hq)

theorem writeN_succ (n : Nat) : writeN (n + 1) = (writeN n).write n := by
  simp [writeN, List.range_succ]

theorem goodJ_writeN (n : Nat) : goodJ (writeN n) := by
  induction n with
  | zero =>
    intro p hp
    simp [writeN, Journal.new] at hp
  | succ n ih =>
    rw [writeN_succ]
    exact goodJ_write _ _ ih

theorem journal_recIds_write (j : Journal) (x : LogId) (h : goodJ j) :
    Journal.recIds (j.write x) = x :: Journal.recIds j := by
  have hfreshW : Page.recIds (Page.write Page.fresh x).1 = [x] := by
    rw [page_recIds_eq, page_records_write Page.fresh x (by simp [Page.fresh, PAGE_SIZE])]
    simp [Page.records, Page.fresh]
  rcases hj : j.pages with _ | ⟨p, rest⟩
  · simp [Journal.write, hj, Journal.recIds, flatList, hfreshW]
  · cases hf : p.is_full
    · have hp : goodPage p := h p (by rw [hj]; exact List.mem_cons_self _ _)
      have hlt : p.len < p.logs.length := by
        obtain ⟨h1, h2⟩ := hp
        have hne : ¬ p.len = PAGE_SIZE := by simpa [Page.is_full] using hf
        omega
      have hstep : Page.recIds (Page.write p x).1 = x :: Page.recIds p := by
        rw [page_recIds_eq, page_records_write p x hlt, List.reverse_append,
          ← page_recIds_eq]
        rfl
      simp [Journal.write, hj, hf, Journal.recIds, flatList, hstep]
    · simp [Journal.write, hj, hf, Journal.recIds, flatList, hfreshW]

theorem recIds_writeN (n : Nat) : Journal.recIds (writeN n) = (List.range n).reverse := by
  induction n with
  | zero => rfl
  | succ n ih =>
    rw [writeN_succ, journal_recIds_write _ _ (goodJ_writeN n), ih, List.range_succ]
    simp

theorem write_flags (j : Journal) (x : LogId) : (j.write x).flags = j.flags := by
  rcases hj : j.pages with _ | ⟨p, rest⟩
  · simp [Journal.write, hj]
  · cases hf : p.is_full <;> simp [Journal.write, hj, hf]

theorem writeN_flags (n : Nat) : (writeN n).flags = 0 := by
  induction n with
  | zero => rfl
  | succ n ih => rw [writeN_succ, write_flags, ih]

theorem recoverIdsOf_append (a b : List Ev) :
    recoverIdsOf (a ++ b) = recoverIdsOf a ++ recoverIdsOf b := by
  simp [recoverIdsOf]

theorem recoverIdsOf_map_notify (l : List Nat) (g : Nat → LogId) :
    recoverIdsOf (l.map (fun i => Ev.act (g i) LOp.notifyOp)) = [] := by
  induction l with
  | nil => rfl
  | cons a l ih =>
    show recoverIdsOf (Ev.act (g a) LOp.notifyOp :: l.map _) = []
    rw [recoverIdsOf, List.filterMap_cons]
    exact ih

theorem recoverIdsOf_notify_pages (ps : List Page) :
    recoverIdsOf (flatList (ps.map Page.notifyEv)) = [] := by
  induction ps with
  | nil => rfl
  | cons p ps ih =>
    show recoverIdsOf (Page.notifyEv p ++ flatList (ps.map Page.notifyEv)) = []
    rw [recoverIdsOf_append, ih, Page.notifyEv, recoverIdsOf_map_notify]
    rfl

theorem recoverIdsOf_map_recover (l : List Nat) (g : Nat → LogId) (rb : Bool) :
    recoverIdsOf (l.map (fun i => Ev.act (g i) (LOp.recoverOp rb))) = l.map g := by
  induction l with
  | nil => rfl
  | cons a l ih => simpa [recoverIdsOf, List.filterMap_cons] using ih

theorem recoverIdsOf_recover_pages (ps : List Page) (rb : Bool) :
    recoverIdsOf (flatList (ps.map (Page.recoverEv rb))) = flatList (ps.map Page.recIds) := by
  induction ps with
  | nil => rfl
  | cons p ps ih =>
    show recoverIdsOf (Page.recoverEv rb p ++ flatList (ps.map (Page.recoverEv rb))) = _
    rw [recoverIdsOf_append, ih, Page.recoverEv, recoverIdsOf_map_recover]
    rfl

/-- Claim C4: `Page::recover` visits the records of a page at indices
`len-1` down to `0`, and `Journal::recover` visits pages newest-first
(`new_page` prepends), so for a journal built by `n` logged writes of the
record ids `0, 1, …, n-1` (the global insertion order) the recover pass
visits the records in exactly the reverse of the global insertion
order. -/
theorem c4_recovery_reverse_of_insertion (n : Nat) (c : Bool) :
    recoverIdsOf ((writeN n).recover c).2 = (List.range n).reverse := by
  have hc : (writeN n).is_set JOURNAL_COMMITTED = false := by
    simp [Journal.is_set, writeN_flags, JOURNAL_COMMITTED]
  simp only [Journal.recover, Journal.set, hc, Bool.not_false, Bool.true_or, if_true]
  rw [recoverIdsOf_append, recoverIdsOf_append, recoverIdsOf_notify_pages,
    recoverIdsOf_recover_pages]
  have h2 : recoverIdsOf [Ev.setFlag JOURNAL_COMMITTED, Ev.msyncFlags] = [] := rfl
  rw [h2]
  simp only [List.nil_append, List.append_nil]
  exact recIds_writeN n

theorem countOnes_zero : countOnes 0 = 0 := by
  decide

theorem and_cover_ne_zero (flags a b : Nat) (hab : b &&& a = a) (h : flags &&& a ≠ 0) :
    flags &&& b ≠ 0 := by
  intro h0
  apply h
  calc flags &&& a = flags &&& (b &&& a) := by rw [hab]
    _ = flags &&& b &&& a := by rw [← Nat.and_assoc]
    _ = 0 &&& a := by rw [h0]
    _ = 0 := Nat.zero_and a

/-- Claim C6 as amended: `apply_flags` with `O_C` set (and valid size
bits) creates the pool file unconditionally — whether or not the file
exists, any existing file is removed and a fresh file of the computed
size is created; only `O_CNE` leaves an existing file in place (second
conjunct: an existing file with `O_CNE` triggers no file action). -/
theorem c6_apply_flags_o_c_recreates (fileExists : Bool) (flags : Nat)
    (h1 : countOnes (flags >>> 4) ≤ 1) (h2 : flags &&& O_C ≠ 0) :
    apply_flags fileExists flags
      = Except.ok ([FAct.removeFile,
          FAct.createFile (if flags >>> 4 = 0 then DEFAULT_POOL_SIZE
            else (flags >>> 4) * 2 ^ 30)]
          ++ (if flags &&& O_F ≠ 0 then [FAct.formatFile] else []))
    ∧ apply_flags true O_CNE = Except.ok [] := by
  refine ⟨?_, by rfl⟩
  have hnot : ¬ countOnes (flags >>> 4) > 1 := by omega
  have hcond : flags &&& O_C ≠ 0 ∨ (flags &&& O_CNE ≠ 0 ∧ fileExists = false) := Or.inl h2
  by_cases hz : flags >>> 4 = 0
  · simp [apply_flags, hnot, hz, apply_flags_tail, hcond, countOnes_zero]
  · have hcne : flags &&& (O_C ||| O_CNE) ≠ 0 :=
      and_cover_ne_zero flags O_C (O_C ||| O_CNE) (by decide) h2
    simp [apply_flags, hnot, hz, hcne, apply_flags_tail, hcond, Nat.shiftLeft_eq]

/-- Witness for the amended C6: with the file existing and `flags = O_C`,
the existing file is removed and an 8 MiB file is created. -/
theorem c6_apply_flags_o_c_recreates_witness :
    (apply_flags true O_C
      = Except.ok ([FAct.removeFile,
          FAct.createFile (if O_C >>> 4 = 0 then DEFAULT_POOL_SIZE
            else (O_C >>> 4) * 2 ^ 30)]
          ++ (if O_C &&& O_F ≠ 0 then [FAct.formatFile] else []))
    ∧ apply_flags true O_CNE = Except.ok []) :=
  c6_apply_flags_o_c_recreates true O_C (by decide) (by decide)

/-- Claim C7: `apply_flags` rejects more than one size bit with
"Cannot have multiple size flags", rejects one size bit without a create
flag with "Cannot use size flag without a create flag" — in both cases
before any file operation (the error is the same whatever the file
existence, and carries no file actions) — and otherwise the file it
creates has length `(flags >> 4) * 2^30` bytes, or 8 MiB
(`DEFAULT_POOL_SIZE`) when no size bit is set. -/
theorem c7_apply_flags_validation (fileExists : Bool) (flags : Nat) :
    (countOnes (flags >>> 4) > 1 →
      apply_flags fileExists flags = Except.error "Cannot have multiple size flags")
    ∧ (countOnes (flags >>> 4) = 1 → flags &&& (O_C ||| O_CNE) = 0 →
      apply_flags fileExists flags
        = Except.error "Cannot use size flag without a create flag")
    ∧ (countOnes (flags >>> 4) ≤ 1 →
      (flags &&& O_C ≠ 0 ∨ (flags &&& O_CNE ≠ 0 ∧ fileExists = false)) →
      ∃ acts, apply_flags fileExists flags = Except.ok acts
        ∧ FAct.createFile (if flags >>> 4 = 0 then DEFAULT_POOL_SIZE
            else (flags >>> 4) * 2 ^ 30) ∈ acts) := by
  refine ⟨fun h => by simp [apply_flags, h], fun h1 h2 => ?_, fun h1 h2 => ?_⟩
  · have hnot : ¬ countOnes (flags >>> 4) > 1 := by omega
    have hz : ¬ flags >>> 4 = 0 := by
      intro hz
      rw [hz] at h1
      exact absurd h1 (by decide)
    simp [apply_flags, hnot, hz, h2]
  · have hnot : ¬ countOnes (flags >>> 4) > 1 := by omega
    by_cases hz : flags >>> 4 = 0
    · refine ⟨apply_flags_tail fileExists flags DEFAULT_POOL_SIZE, ?_, ?_⟩
      · simp [apply_flags, hnot, hz, countOnes_zero]
      · simp [apply_flags_tail, h2, hz]
    · have hcne : flags &&& (O_C ||| O_CNE) ≠ 0 := by
        rcases h2 with h2 | h2
        · exact and_cover_ne_zero flags O_C (O_C ||| O_CNE) (by decide) h2
        · exact and_cover_ne_zero flags O_CNE (O_C ||| O_CNE) (by decide) h2.1
      refine ⟨apply_flags_tail fileExists flags ((flags >>> 4) <<< 30), ?_, ?_⟩
      · simp [apply_flags, hnot, hz, hcne]
      · simp [apply_flags_tail, h2, hz, Nat.shiftLeft_eq]

/-- Witness for C7: two size bits (`0x30`) rejected; one size bit without
a create flag (`0x10`) rejected; `O_C` with the 2 GiB bit (`0x21`)
creates a file of `2 * 2^30` bytes. -/
theorem c7_apply_flags_validation_witness :
    (apply_flags true 0x30 = Except.error "Cannot have multiple size flags")
    ∧ (apply_flags false 0x10
        = Except.error "Cannot use size flag without a create flag")
    ∧ (∃ acts, apply_flags true 0x21 = Except.ok acts
        ∧ FAct.createFile (if (0x21 : Nat) >>> 4 = 0 then DEFAULT_POOL_SIZE
            else ((0x21 : Nat) >>> 4) * 2 ^ 30) ∈ acts) :=
  ⟨(c7_apply_flags_validation true 0x30).1 (by decide),
   (c7_apply_flags_validation false 0x10).2.1 (by decide) (by decide),
   (c7_apply_flags_validation true 0x21).2.2 (by decide) (Or.inl (by decide))⟩

end Corundum
